import Mathlib

/-!
Verification of the connection discovery and reconnection subsystem of the
device_manager repository, against its natural-language specification.

The Python sources embedded here (shallowly) are:
  - device_manager/connection/utils/mdns_context.py      (MDnsContext)
  - device_manager/connection/utils/mdns_listener.py     (MDnsListener)
  - device_manager/connection/adb_connection_discovery.py (AdbConnectionDiscovery)
  - device_manager/connection/connection_manager.py      (ConnectionManager)
  - device_manager/connection/device_connection.py       (DeviceConnection)
  - device_manager/connection/adb_pairing.py             (AdbPairing)

External effects (subprocess calls to the adb tool, the zeroconf mDNS
library, the regular-expression library) are modelled as oracle parameters:
a call that only returns data becomes a function argument giving the result
of each such call, and a call performed only for its side effect is dropped
(noted in comments at the corresponding place).
-/

namespace DeviceManager

/-- Modelled from the spec: the file
device_manager/connection/utils/service_info.py is not present under src;
the spec describes its content as PeerRecord, a record with a serial number
(the unique identity), an ip string, and an integer port. -/
structure ServiceInfo where
  serial_number : String
  ip : String
  port : Nat
deriving DecidableEq, Repr

/-- Enumeration from device_manager/connection/utils/connection_status.py. -/
inductive ConnectionInfoStatus where
  | UPDATED
  | CHANGED
  | DOWN
  | UNKNOWN
deriving DecidableEq, Repr

/-- State of MDnsContext (mdns_context.py): two mappings from serial number
to ServiceInfo, named online and offline. The Python class stores them as
two dicts guarded by one mutex; we model each dict as a function from keys
to optional values. All mutating methods hold the mutex for their whole
body, so each method is one atomic step on this state. -/
structure MDnsContext where
  online : String → Option ServiceInfo
  offline : String → Option ServiceInfo

/-- The initial context: both dicts empty (MDnsContext.__init__). -/
def MDnsContext.empty : MDnsContext :=
  { online := fun _ => none, offline := fun _ => none }

/-- MDnsContext.add_service: under the mutex, pop key_data from the offline
dict when present, then insert key_data into the online dict. Popping a key
when present is extensionally the pointwise erase written here. -/
def MDnsContext.add_service (ctx : MDnsContext) (key_data : String)
    (data : ServiceInfo) : MDnsContext :=
  { online := fun s => if s = key_data then some data else ctx.online s,
    offline := fun s => if s = key_data then none else ctx.offline s }

/-- MDnsContext.update_service: the Python body is identical to add_service
(pop from offline when present, insert into online). -/
def MDnsContext.update_service (ctx : MDnsContext) (key_data : String)
    (data : ServiceInfo) : MDnsContext :=
  { online := fun s => if s = key_data then some data else ctx.online s,
    offline := fun s => if s = key_data then none else ctx.offline s }

/-- MDnsContext.to_offline_service: under the mutex, pop key_data from the
online dict when present, then insert key_data into the offline dict. -/
def MDnsContext.to_offline_service (ctx : MDnsContext) (key_data : String)
    (data : ServiceInfo) : MDnsContext :=
  { online := fun s => if s = key_data then none else ctx.online s,
    offline := fun s => if s = key_data then some data else ctx.offline s }

/-- MDnsContext.get_online_service_list: the Python method acquires the
mutex and returns the internal online dict object itself (no copy is made),
so the caller receives a reference that aliases the registry storage: the
contents seen through the returned mapping at any later time are the
contents of the registry online dict at that time. The src snapshot names
this accessor get_online_service_list; the call sites in
adb_connection_discovery.py and adb_pairing.py and the repository tests
invoke it as get_online_service, the name it carries in the version those
files were written against. -/
def MDnsContext.get_online_service_list (ctx : MDnsContext) :
    String → Option ServiceInfo :=
  ctx.online

/-- MDnsContext.get_offline_service_list: same shape as the online getter,
returning the internal offline dict by reference. -/
def MDnsContext.get_offline_service_list (ctx : MDnsContext) :
    String → Option ServiceInfo :=
  ctx.offline

/-- The accessor name used by adb_connection_discovery.py and
adb_pairing.py for the online dict (see get_online_service_list). -/
def MDnsContext.get_online_service (ctx : MDnsContext) :
    String → Option ServiceInfo :=
  ctx.online

/-- The accessor name used by adb_connection_discovery.py for the offline
dict (see get_offline_service_list). -/
def MDnsContext.get_offline_service (ctx : MDnsContext) :
    String → Option ServiceInfo :=
  ctx.offline

/-- One registry mutation, as invoked by the mDNS listener callbacks. -/
inductive RegistryOp where
  | add (key : String) (data : ServiceInfo)
  | update (key : String) (data : ServiceInfo)
  | toOffline (key : String) (data : ServiceInfo)

/-- Apply one registry operation to a context. -/
def applyOp (ctx : MDnsContext) : RegistryOp → MDnsContext
  | RegistryOp.add key data => ctx.add_service key data
  | RegistryOp.update key data => ctx.update_service key data
  | RegistryOp.toOffline key data => ctx.to_offline_service key data

/-- Apply a finite sequence of registry operations, oldest first. -/
def applyOps (ops : List RegistryOp) (ctx : MDnsContext) : MDnsContext :=
  ops.foldl applyOp ctx

/-- The registry partition invariant: no serial is present in both the
online and the offline mapping. -/
def DisjointCtx (ctx : MDnsContext) : Prop :=
  ∀ s : String, ctx.online s = none ∨ ctx.offline s = none

theorem disjointCtx_empty : DisjointCtx MDnsContext.empty := by
  intro s
  exact Or.inl rfl

theorem disjointCtx_applyOp (ctx : MDnsContext) (op : RegistryOp)
    (h : DisjointCtx ctx) : DisjointCtx (applyOp ctx op) := by
  intro s
  cases op with
  | add key data =>
    by_cases hs : s = key
    · exact Or.inr (by simp [applyOp, MDnsContext.add_service, hs])
    · simpa [applyOp, MDnsContext.add_service, hs] using h s
  | update key data =>
    by_cases hs : s = key
    · exact Or.inr (by simp [applyOp, MDnsContext.update_service, hs])
    · simpa [applyOp, MDnsContext.update_service, hs] using h s
  | toOffline key data =>
    by_cases hs : s = key
    · exact Or.inl (by simp [applyOp, MDnsContext.to_offline_service, hs])
    · simpa [applyOp, MDnsContext.to_offline_service, hs] using h s

theorem disjointCtx_foldl (ops : List RegistryOp) (ctx : MDnsContext)
    (h : DisjointCtx ctx) : DisjointCtx (applyOps ops ctx) := by
  induction ops generalizing ctx with
  | nil => exact h
  | cons op rest ih =>
    exact ih (applyOp ctx op) (disjointCtx_applyOp ctx op h)

/-- C2: for every finite sequence of add_service, update_service, and
to_offline_service operations applied to an initially empty registry, at
every observable point no serial number is present in both the online
mapping and the offline mapping simultaneously. (Every observable point
is the state after some finite prefix of calls, which is itself the result
of applying a finite sequence to the empty registry; every mutator holds
the single mutex for its whole body, so no intermediate state is
observable.) -/
theorem registry_online_offline_disjoint (ops : List RegistryOp) :
    DisjointCtx (applyOps ops MDnsContext.empty) :=
  disjointCtx_foldl ops MDnsContext.empty disjointCtx_empty

/-- AdbConnectionDiscovery.connection_status_for_device
(adb_connection_discovery.py, lines 159 to 194). The method first checks
membership of the serial number in the offline dict, then in the online
dict, then compares the stored ip with the ip of the caller-held record. -/
def connection_status_for_device (ctx : MDnsContext)
    (service_info : ServiceInfo) : ConnectionInfoStatus :=
  match ctx.get_offline_service service_info.serial_number with
  | some _ => ConnectionInfoStatus.DOWN
  | none =>
    match ctx.get_online_service service_info.serial_number with
    | none => ConnectionInfoStatus.UNKNOWN
    | some service_ref =>
      if service_ref.ip = service_info.ip then ConnectionInfoStatus.UPDATED
      else ConnectionInfoStatus.CHANGED

/-- AdbConnectionDiscovery.get_service_info_for: look the serial number up
in the online dict; return None when absent. -/
def get_service_info_for (ctx : MDnsContext) (serial_num : String) :
    Option ServiceInfo :=
  match ctx.get_online_service serial_num with
  | some info => some info
  | none => none

/-- C3: for every registry state satisfying the documented partition
invariant (a serial is in at most one of the two mappings, the invariant
every reachable state satisfies) and every caller-held record R,
connection_status_for_device(R) returns DOWN when the serial of R is in the
offline mapping, UNKNOWN when it is in neither mapping, UPDATED when it is
in the online mapping with the stored ip equal to the ip of R, and CHANGED
when it is in the online mapping with the stored ip different from the ip
of R. -/
theorem connection_status_classification (ctx : MDnsContext)
    (si : ServiceInfo) (hdisj : DisjointCtx ctx) :
    (∀ r, ctx.offline si.serial_number = some r →
      connection_status_for_device ctx si = ConnectionInfoStatus.DOWN) ∧
    (ctx.offline si.serial_number = none →
      ctx.online si.serial_number = none →
      connection_status_for_device ctx si = ConnectionInfoStatus.UNKNOWN) ∧
    (∀ r, ctx.online si.serial_number = some r → r.ip = si.ip →
      connection_status_for_device ctx si = ConnectionInfoStatus.UPDATED) ∧
    (∀ r, ctx.online si.serial_number = some r → r.ip ≠ si.ip →
      connection_status_for_device ctx si = ConnectionInfoStatus.CHANGED) := by
  refine ⟨?_, ?_, ?_, ?_⟩
  · intro r hr
    simp [connection_status_for_device, MDnsContext.get_offline_service, hr]
  · intro hoff hon
    simp [connection_status_for_device, MDnsContext.get_offline_service,
      MDnsContext.get_online_service, hoff, hon]
  · intro r hr hip
    have hoff : ctx.offline si.serial_number = none := by
      rcases hdisj si.serial_number with h | h
      · rw [hr] at h
        exact absurd h (by simp)
      · exact h
    simp [connection_status_for_device, MDnsContext.get_offline_service,
      MDnsContext.get_online_service, hoff, hr, hip]
  · intro r hr hip
    have hoff : ctx.offline si.serial_number = none := by
      rcases hdisj si.serial_number with h | h
      · rw [hr] at h
        exact absurd h (by simp)
      · exact h
    simp [connection_status_for_device, MDnsContext.get_offline_service,
      MDnsContext.get_online_service, hoff, hr, hip]

/-- A registry with serial S online at ip 1.2.3.4 port 5555 and nothing
offline, used to instantiate the classification theorem. -/
def ctxClassW : MDnsContext :=
  { online := fun s =>
      if s = "S" then some ⟨"S", "1.2.3.4", 5555⟩ else none,
    offline := fun _ => none }

/-- Witness for C3: the classification theorem applied at a concrete
registry and record, discharging the disjointness hypothesis. -/
theorem connection_status_classification_witness :
    DisjointCtx ctxClassW ∧
    connection_status_for_device ctxClassW ⟨"S", "1.2.3.4", 5555⟩ =
      ConnectionInfoStatus.UPDATED := by
  have hdisj : DisjointCtx ctxClassW := fun _ => Or.inr rfl
  exact ⟨hdisj,
    (connection_status_classification ctxClassW ⟨"S", "1.2.3.4", 5555⟩
      hdisj).2.2.1 ⟨"S", "1.2.3.4", 5555⟩ (by simp [ctxClassW]) rfl⟩

/-- A concrete record for the snapshot aliasing counterexample. -/
def recSnap : ServiceInfo := ⟨"SER1", "10.0.0.5", 5555⟩

/-- Counterexample for C6: get_online_service_list returns the internal
online dict by reference, not a point-in-time copy, so the contents seen
through the returned mapping m change when the registry is mutated. Capture
m on the empty registry, then run add_service: through m the serial SER1 is
now present, while at capture time it was absent. The claim that the
contents of m are unchanged by a subsequent add_service call is therefore
false at this input. -/
theorem online_snapshot_not_copy_cex :
    (MDnsContext.empty.add_service "SER1" recSnap).get_online_service_list
        "SER1" ≠
      MDnsContext.empty.get_online_service_list "SER1" := by
  simp [MDnsContext.get_online_service_list, MDnsContext.add_service,
    MDnsContext.empty]

/-- C6 amended: get_online_service_list (and get_offline_service_list)
returns the internal mapping itself, not a copy: subsequent mutations are
visible through the returned mapping. After add_service (or
update_service) with key k and data d, the online mapping read through the
getter maps k to d, and after to_offline_service with key k and data d the
offline mapping read through the getter maps k to d. -/
theorem online_snapshot_aliases_registry (ctx : MDnsContext) (k : String)
    (d : ServiceInfo) :
    (ctx.add_service k d).get_online_service_list k = some d ∧
    (ctx.update_service k d).get_online_service_list k = some d ∧
    (ctx.to_offline_service k d).get_offline_service_list k = some d := by
  refine ⟨?_, ?_, ?_⟩ <;>
    simp [MDnsContext.get_online_service_list,
      MDnsContext.get_offline_service_list, MDnsContext.add_service,
      MDnsContext.update_service, MDnsContext.to_offline_service]

/-- Raw mDNS record as delivered by zeroconf to MDnsListener._extract_info
(mdns_listener.py): a service name, a list of packed IPv4 addresses (four
bytes each), and a port. The handlers receive the result of
zc.get_service_info, which can also be absent; that is modelled by the
handlers taking an Option of this record. -/
structure RawServiceInfo where
  name : String
  addresses : List (Nat × Nat × Nat × Nat)
  port : Nat

/-- socket.inet_ntoa on a packed four-byte IPv4 address: the dotted-decimal
string. -/
def inet_ntoa : Nat × Nat × Nat × Nat → String
  | (a, b, c, d) =>
    toString a ++ "." ++ toString b ++ "." ++ toString c ++ "." ++ toString d

/-- MDnsListener._extract_info (mdns_listener.py, lines 106 to 136).
The regular-expression call re.match against the pattern built from the
configured filter and the service type is an external library call,
modelled by the oracle argument: matcher is none when no filter is
configured (re_filter is None), and some m when a filter is configured,
with m giving the first captured group of the match, or none when the name
does not match. Results: ok (some info) is a normalized record, ok none is
a silently skipped record (the no-match diagnostic is printed), and error
is an exception raised to the caller: the except block at the end of the
source prints the exception and re-raises it, so an absent record (raw is
none, attribute access on None) and an empty address list (index 0 out of
range) both propagate as exceptions. -/
def extract_info (matcher : Option (String → Option String))
    (raw : Option RawServiceInfo) : Except String (Option ServiceInfo) :=
  match raw with
  | none => Except.error "AttributeError: NoneType has no attribute addresses"
  | some info =>
    match info.addresses with
    | [] => Except.error "IndexError: list index out of range"
    | addr :: _ =>
      let ip := inet_ntoa addr
      match matcher with
      | none =>
        match info.name.splitOn "." with
        | [] => Except.ok (some ⟨"", ip, info.port⟩)
        | part :: _ => Except.ok (some ⟨part, ip, info.port⟩)
      | some m =>
        match m info.name with
        | some serial_num => Except.ok (some ⟨serial_num, ip, info.port⟩)
        | none => Except.ok none

/-- The three event kinds delivered by the zeroconf ServiceBrowser to the
listener. -/
inductive MdnsEvent where
  | added
  | updated
  | removed

/-- The MDnsListener handlers add_service, update_service and
remove_service (mdns_listener.py, lines 68 to 104): each extracts a
normalized record from the raw service information and, when extraction
produced one, dispatches to the registry mutator for its event kind. An
exception raised by the extraction propagates out of the handler. -/
def listener_handle (matcher : Option (String → Option String))
    (ev : MdnsEvent) (ctx : MDnsContext) (raw : Option RawServiceInfo) :
    Except String MDnsContext :=
  match extract_info matcher raw with
  | Except.error e => Except.error e
  | Except.ok none => Except.ok ctx
  | Except.ok (some info) =>
    match ev with
    | MdnsEvent.added => Except.ok (ctx.add_service info.serial_number info)
    | MdnsEvent.updated =>
      Except.ok (ctx.update_service info.serial_number info)
    | MdnsEvent.removed =>
      Except.ok (ctx.to_offline_service info.serial_number info)

/-- Counterexample for C4: a raw record with no address present is not
skipped silently: the listener prints the IndexError and re-raises it, so
the handler does raise to its caller. Concrete input: the added event, a
configured filter whose matcher accepts nothing, and a raw record with an
empty address list. -/
theorem listener_no_address_raises_cex :
    listener_handle (some fun _ => none) MdnsEvent.added MDnsContext.empty
        (some ⟨"svc", [], 5555⟩) =
      Except.error "IndexError: list index out of range" := rfl

/-- C4 amended: for every mDNS event (added, updated, or removed) whose raw
record is present and carries at least one address, the handler returns
normally (never raises), and a service name that does not match the
configured filter pattern is skipped with no registry mutation and at most
a diagnostic emitted; however a raw record with no address present (or an
absent record) makes the handler print the exception and re-raise it to
its caller. -/
theorem listener_skips_nonmatching_names (m : String → Option String)
    (ev : MdnsEvent) (ctx : MDnsContext) (name : String)
    (addr : Nat × Nat × Nat × Nat) (rest : List (Nat × Nat × Nat × Nat))
    (port : Nat) :
    (∃ ctx2, listener_handle (some m) ev ctx
        (some ⟨name, addr :: rest, port⟩) = Except.ok ctx2) ∧
    (m name = none → listener_handle (some m) ev ctx
        (some ⟨name, addr :: rest, port⟩) = Except.ok ctx) := by
  constructor
  · cases hm : m name with
    | none => exact ⟨ctx, by simp [listener_handle, extract_info, hm]⟩
    | some serial_num =>
      cases ev with
      | added =>
        exact ⟨ctx.add_service serial_num
            ⟨serial_num, inet_ntoa addr, port⟩,
          by simp [listener_handle, extract_info, hm]⟩
      | updated =>
        exact ⟨ctx.update_service serial_num
            ⟨serial_num, inet_ntoa addr, port⟩,
          by simp [listener_handle, extract_info, hm]⟩
      | removed =>
        exact ⟨ctx.to_offline_service serial_num
            ⟨serial_num, inet_ntoa addr, port⟩,
          by simp [listener_handle, extract_info, hm]⟩
  · intro hm
    simp [listener_handle, extract_info, hm]

/-- Witness for C4 amended: the theorem applied at a concrete event, a
matcher rejecting every name, and a concrete raw record with one address,
discharging the no-match hypothesis. -/
theorem listener_skips_nonmatching_names_witness :
    listener_handle (some fun _ => none) MdnsEvent.added MDnsContext.empty
        (some ⟨"foreign-svc", [(192, 168, 0, 7)], 40000⟩) =
      Except.ok MDnsContext.empty :=
  (listener_skips_nonmatching_names (fun _ => none) MdnsEvent.added
    MDnsContext.empty "foreign-svc" (192, 168, 0, 7) [] 40000).2 rfl

/-- Observable state of AdbConnectionDiscovery
(adb_connection_discovery.py). The zeroconf resolver and browser objects
are modelled by booleans recording whether they exist, whether close was
called on the resolver, and whether the weakref finalizer attached in
start is still alive. -/
structure DiscoveryState where
  started : Bool
  zeroconfPresent : Bool
  zeroconfClosed : Bool
  browserPresent : Bool
  finalizerAlive : Bool
deriving DecidableEq, Repr

/-- AdbConnectionDiscovery.__init__: nothing started, no resolver, no
browser, no finalizer. -/
def DiscoveryState.init : DiscoveryState :=
  { started := false, zeroconfPresent := false, zeroconfClosed := false,
    browserPresent := false, finalizerAlive := false }

/-- AdbConnectionDiscovery.start (lines 56 to 83): when not already
started, create the Zeroconf instance and the ServiceBrowser, attach a
weakref finalizer on the Zeroconf instance (the atexit callback that will
later clear the browser and the started flag), and set started. When
already started, do nothing. -/
def DiscoveryState.start (s : DiscoveryState) : DiscoveryState :=
  if s.started then s
  else
    { started := true, zeroconfPresent := true, zeroconfClosed := false,
      browserPresent := true, finalizerAlive := true }

/-- AdbConnectionDiscovery.stop_discovery_listener (lines 196 to 199): the
body is exactly one call, self.__zeroconf.close(). Closing the resolver
does not run the weakref finalizer (the instance is still referenced by
the discovery object), so neither the started flag nor the browser
attribute is touched. On a never-started instance the source would raise
(close on None); that path is outside the claims and not modelled. -/
def stop_discovery_listener (s : DiscoveryState) : DiscoveryState :=
  { s with zeroconfClosed := true }

/-- The atexit callback installed by start, run by the weakref finalizer
when the Zeroconf instance is reclaimed: clear the browser attribute and
the started flag. -/
def finalize_zeroconf (s : DiscoveryState) : DiscoveryState :=
  { s with
    browserPresent := false
    started := false
    finalizerAlive := false
    zeroconfPresent := false }

/-- AdbConnectionDiscovery.service_browser_started (lines 97 to 104):
returns the started flag. -/
def service_browser_started (s : DiscoveryState) : Bool :=
  s.started

/-- Counterexample for C9: after stop_discovery_listener on a discovery
service whose start had previously run, service_browser_started still
reports True, not False: stop only closes the Zeroconf instance and the
started flag is cleared only by the garbage-collection finalizer. -/
theorem stop_discovery_not_stopped_cex :
    service_browser_started
        (stop_discovery_listener (DiscoveryState.start DiscoveryState.init)) =
      true := rfl

/-- C9 amended: after stop_discovery_listener returns on a discovery
service whose start had previously run, the Zeroconf instance has been
closed but service_browser_started still reports True; the service reaches
the state where service_browser_started reports False only when the
finalizer of the Zeroconf instance runs (at garbage collection). -/
theorem stop_discovery_closes_but_started_persists :
    (stop_discovery_listener
        (DiscoveryState.start DiscoveryState.init)).zeroconfClosed = true ∧
    service_browser_started
        (stop_discovery_listener (DiscoveryState.start DiscoveryState.init)) =
      true ∧
    service_browser_started
        (finalize_zeroconf (stop_discovery_listener
          (DiscoveryState.start DiscoveryState.init))) = false :=
  ⟨rfl, rfl, rfl⟩

/-- The communication URI built throughout connection_manager.py and
device_connection.py: the ip and the port joined by a colon. -/
def commUri (info : ServiceInfo) : String :=
  info.ip ++ ":" ++ toString info.port

/-- ConnectionManager.device_connect (connection_manager.py, lines 113 to
135): look the serial number up in the discovery registry via
get_service_info_for. When absent, log a warning. When present, run the
raw adb connect subprocess on the ip colon port address and log a warning
when its stdout reports a failed connect. Either way return the looked-up
record. The subprocess is modelled by the oracle connectFailed, giving for
each address whether the adb connect stdout contained the failure marker.
The second component collects the logged diagnostics. -/
def device_connect (ctx : MDnsContext) (serial_num : String)
    (connectFailed : String → Bool) : Option ServiceInfo × List String :=
  match get_service_info_for ctx serial_num with
  | none => (none, ["Device service not online or located"])
  | some info =>
    let comm_uri := commUri info
    (some info,
      if connectFailed comm_uri then ["Failed to connect device"] else [])

/-- Environment of a DeviceConnection run: the external collaborators of
device_connection.py, given as oracles.
fixedPort is the fixed_port attribute (default 5555). discAt k is the
discovery registry snapshot read by the k-th device_connect call (the
registry is mutated concurrently by the mDNS thread, so successive calls
may see different contents). discV is the registry snapshot read by
check_wireless_adb_service_for during validation. adbCheck gives the
result of check_devices_adb_connection for an address (whether the adb
devices table lists the address without the offline marker,
connection_manager.py lines 43 to 72). connectFailed is the adb connect
stdout oracle of device_connect. -/
structure DCEnv where
  fixedPort : Nat
  discAt : Nat → MDnsContext
  discV : MDnsContext
  adbCheck : String → Bool
  connectFailed : String → Bool

/-- The managed connection table, connection_info in device_connection.py:
an ObjectManager keyed by serial number (components/object_manager.py). Its
add inserts (the runtime type check always passes here, every stored value
is a ServiceInfo), remove deletes the key when present, and get returns
None for an absent key. We model the table as the underlying dict. -/
def ConnState : Type :=
  String → Option ServiceInfo

/-- ConnectionManager.check_wireless_adb_service_for: delegate to the
discovery classification on the current registry contents. -/
def check_wireless_adb_service_for (env : DCEnv) (info : ServiceInfo) :
    ConnectionInfoStatus :=
  connection_status_for_device env.discV info

/-- DeviceConnection.validate_connection with force_reconnect False
(device_connection.py, lines 299 to 346), the specialization invoked by
the port-fix step. The source body is: return False when the serial is not
in the managed table; otherwise build comm_uri from the stored record,
compute coninfostatus, and test
coninfostatus != (ConnectionInfoStatus.UPDATED or not
self.connection.check_devices_adb_connection(comm_uri)).
In Python the parenthesized or-expression evaluates its left operand
first; an enum member is truthy, so the expression short-circuits to
ConnectionInfoStatus.UPDATED and check_devices_adb_connection is never
invoked. The test is therefore coninfostatus != UPDATED: when it holds the
method returns False (force_reconnect is False here), otherwise True. -/
def validate_connection_noforce (env : DCEnv) (st : ConnState)
    (serial_number : String) : Bool :=
  match st serial_number with
  | none => false
  | some device =>
    if connection_status_for_device env.discV device ≠
        ConnectionInfoStatus.UPDATED
    then false
    else true

/-- DeviceConnection.__fix_adb_port (lines 376 to 389): when
validate_connection on the serial succeeds, run the raw adb tcpip command
on the current address (a pure side effect on the device, no table
change), then set the port field of the stored record to fixed_port. The
stored record is mutated in place; in this value-level model the table
entry is replaced by a copy with the new port. The none branch of the
inner match is unreachable: validate_connection returned True, so the
serial is in the table. -/
def fix_adb_port (env : DCEnv) (st : ConnState) (serial_number : String) :
    ConnState :=
  if validate_connection_noforce env st serial_number then
    match st serial_number with
    | some d =>
      fun s =>
        if s = serial_number then some { d with port := env.fixedPort }
        else st s
    | none => st
  else st

/-- The for-loop of DeviceConnection.establish_first_connection (lines 269
to 283): three iterations; in an iteration where success is still False
the next device_connect call is issued (d calls gives the result of the
call with index calls); whenever the connection variable holds a record,
success is set. Returns the final connection variable and the number of
device_connect calls issued. -/
def establish_loop (d : Nat → Option ServiceInfo) :
    Nat → Bool → Option ServiceInfo → Nat → Option ServiceInfo × Nat
  | 0, _, connection, calls => (connection, calls)
  | n + 1, success, connection, calls =>
    let step : Option ServiceInfo × Nat :=
      if success then (connection, calls) else (d calls, calls + 1)
    let success1 := if step.fst.isSome then true else success
    establish_loop d n success1 step.fst step.snd

/-- The result of the device_connect call with index k during
establish_first_connection for this serial: the discovery registry
snapshot at that moment, queried for the serial. -/
def attemptResult (env : DCEnv) (serial : String) (k : Nat) :
    Option ServiceInfo :=
  (device_connect (env.discAt k) serial env.connectFailed).fst

/-- DeviceConnection.establish_first_connection (lines 258 to 297): run the
three-iteration loop; when it produced no record, return False with the
table untouched. When it produced a record, remove any prior entry for the
requested serial, insert the record under its own serial number, read the
entry back, and when its port differs from fixed_port run the port-fix
sub-protocol. Return True together with the final table and the number of
device_connect calls issued. -/
def establish_first_connection (env : DCEnv) (st : ConnState)
    (device_serial_number : String) : Bool × ConnState × Nat :=
  let r := establish_loop (attemptResult env device_serial_number) 3
    false none 0
  match r.fst with
  | none => (false, st, r.snd)
  | some conn =>
    let st1 : ConnState :=
      fun s => if s = device_serial_number then none else st s
    let st2 : ConnState :=
      fun s => if s = conn.serial_number then some conn else st1 s
    let st3 : ConnState :=
      match st2 conn.serial_number with
      | some d =>
        if d.port ≠ env.fixedPort then
          fix_adb_port env st2 conn.serial_number
        else st2
      | none => st2
    (true, st3, r.snd)

/-- DeviceConnection.validate_connection (lines 299 to 346), full version
with the force_reconnect flag. See validate_connection_noforce for the
evaluated semantics of the condition (the live adb devices check written
in the source is dead code behind a short-circuiting or). When the
condition fails and force_reconnect is True, the source re-runs
establish_first_connection, calls disconnect and connect_all_devices
(subprocess side effects only: adb kill-server and one adb connect per
stored device; neither touches the table), and recurses with the same
arguments. The source recursion has no depth bound; the fuel argument
instruments it: the zero-fuel equation repeats the same body with the
re-entry replaced by the False result, so fuel only cuts the
force_reconnect retry loop and the non-recursive paths are identical at
every fuel value. -/
def validate_connection (env : DCEnv) (serial_number : String)
    (force_reconnect : Bool) : Nat → ConnState → Bool × ConnState
  | 0, st =>
    match st serial_number with
    | none => (false, st)
    | some device =>
      if connection_status_for_device env.discV device ≠
          ConnectionInfoStatus.UPDATED
      then (false, st)
      else (true, st)
  | fuel1 + 1, st =>
    match st serial_number with
    | none => (false, st)
    | some device =>
      if connection_status_for_device env.discV device ≠
          ConnectionInfoStatus.UPDATED
      then
        if force_reconnect then
          let r := establish_first_connection env st serial_number
          validate_connection env serial_number force_reconnect fuel1
            r.snd.fst
        else (false, st)
      else (true, st)

theorem validate_connection_false_eq (env : DCEnv) (serial : String)
    (fuel : Nat) (st : ConnState) :
    validate_connection env serial false fuel st =
      (validate_connection_noforce env st serial, st) := by
  cases fuel <;>
    · simp only [validate_connection, validate_connection_noforce]
      cases hd : st serial with
      | none => simp [hd]
      | some device =>
        by_cases hs : connection_status_for_device env.discV device =
          ConnectionInfoStatus.UPDATED <;> simp [hd, hs]

/-- C7: device_connect returns None, with only a diagnostic and never an
exception, exactly when the serial is absent from the online mapping of
the discovery registry; otherwise it returns the discovered record for
that serial even when the raw adb connect invocation reports failure (the
connectFailed oracle is universally quantified, so the returned record does
not depend on it; the function is total, so no exception is raised). -/
theorem device_connect_discovery_truth (ctx : MDnsContext)
    (serial_num : String) (connectFailed : String → Bool) :
    ((device_connect ctx serial_num connectFailed).fst = none ↔
      ctx.online serial_num = none) ∧
    (ctx.online serial_num = none →
      (device_connect ctx serial_num connectFailed).snd =
        ["Device service not online or located"]) ∧
    (∀ r, ctx.online serial_num = some r →
      (device_connect ctx serial_num connectFailed).fst = some r) := by
  refine ⟨?_, ?_, ?_⟩
  · cases hd : ctx.online serial_num <;>
      simp [device_connect, get_service_info_for,
        MDnsContext.get_online_service, hd]
  · intro hd
    simp [device_connect, get_service_info_for,
      MDnsContext.get_online_service, hd]
  · intro r hd
    simp [device_connect, get_service_info_for,
      MDnsContext.get_online_service, hd]

/-- Registry snapshot used to instantiate the device_connect theorem. -/
def ctxConnW : MDnsContext :=
  { online := fun s =>
      if s = "SER1" then some ⟨"SER1", "10.0.0.5", 40000⟩ else none,
    offline := fun _ => none }

/-- Witness for C7: the theorem applied at a concrete registry holding
SER1, with an oracle reporting the raw adb connect as failed; the record
is returned anyway. -/
theorem device_connect_discovery_truth_witness :
    ctxConnW.online "SER1" = some ⟨"SER1", "10.0.0.5", 40000⟩ ∧
    (device_connect ctxConnW "SER1" (fun _ => true)).fst =
      some ⟨"SER1", "10.0.0.5", 40000⟩ :=
  ⟨rfl,
    (device_connect_discovery_truth ctxConnW "SER1" (fun _ => true)).2.2
      ⟨"SER1", "10.0.0.5", 40000⟩ rfl⟩

/-- The record stored for serial SER1 in the evaluation of
validate_connection at the failing input for C1. -/
def recVal : ServiceInfo := ⟨"SER1", "10.0.0.5", 5555⟩

/-- Discovery registry for the C1 failing input: SER1 online at the same
ip as the stored record, so its status classification is UPDATED. -/
def ctxVal : MDnsContext :=
  { online := fun s => if s = "SER1" then some recVal else none,
    offline := fun _ => none }

/-- Managed connection table for the C1 failing input: SER1 stored with
record recVal. -/
def stVal : ConnState :=
  fun s => if s = "SER1" then some recVal else none

/-- Environment for the C1 failing input, parameterized by the adb devices
oracle so the theorem can quantify over it. -/
def envVal (c : String → Bool) : DCEnv :=
  { fixedPort := 5555
    discAt := fun _ => MDnsContext.empty
    discV := ctxVal
    adbCheck := c
    connectFailed := fun _ => false }

/-- C1 evaluated at the failing input: with SER1 managed, its status
classification UPDATED, and ANY result of the live adb devices check
(including one reporting the address as not connected),
validate_connection(SER1, force_reconnect=False) returns True. The claim
requires True only when the live check_devices_adb_connection also
succeeds; in the source the check is dead code, because in
coninfostatus != (ConnectionInfoStatus.UPDATED or not
self.connection.check_devices_adb_connection(comm_uri))
the or short-circuits on the truthy enum member, so the comparison is
against UPDATED alone and the check is never invoked. -/
theorem validate_connection_ignores_live_check (c : String → Bool) :
    connection_status_for_device ctxVal recVal =
      ConnectionInfoStatus.UPDATED ∧
    validate_connection (envVal c) "SER1" false 5 stVal = (true, stVal) := by
  constructor
  · rfl
  · unfold validate_connection
    rfl

/-- If the loop variable success is already set, the remaining iterations
of the establish_first_connection loop change nothing. -/
theorem establish_loop_stuck (d : Nat → Option ServiceInfo) :
    ∀ n (c : Option ServiceInfo) (k : Nat),
      establish_loop d n true c k = (c, k) := by
  intro n
  induction n with
  | zero => intro c k; rfl
  | succ n ih =>
    intro c k
    show establish_loop d n (if c.isSome = true then true else true) c k =
      (c, k)
    rw [ite_self]
    exact ih c k

/-- The establish_first_connection loop issues at most n device_connect
calls over n iterations. -/
theorem establish_loop_calls_le (d : Nat → Option ServiceInfo) :
    ∀ n (s : Bool) (c : Option ServiceInfo) (k : Nat),
      (establish_loop d n s c k).snd ≤ k + n := by
  intro n
  induction n with
  | zero => intro s c k; simp [establish_loop]
  | succ n ih =>
    intro s c k
    cases s with
    | true =>
      show (establish_loop d n (if c.isSome = true then true else true) c
          k).snd ≤ k + (n + 1)
      rw [ite_self]
      have h := ih true c k
      omega
    | false =>
      show (establish_loop d n
          (if (d k).isSome = true then true else false) (d k)
          (k + 1)).snd ≤ k + (n + 1)
      have h := ih (if (d k).isSome = true then true else false) (d k)
        (k + 1)
      omega

/-- When the calls with indices k to k + i - 1 return not-found and the
call with index k + i returns a record, the loop started at call counter k
with i strictly below the remaining iteration budget returns that record
after exactly i + 1 further calls. -/
theorem establish_loop_first_success (d : Nat → Option ServiceInfo) :
    ∀ n i k r, i < n → (∀ j, j < i → d (k + j) = none) →
      d (k + i) = some r →
      establish_loop d n false none k = (some r, k + i + 1) := by
  intro n
  induction n with
  | zero => intro i k r hi; omega
  | succ n ih =>
    intro i k r hi hfail hsucc
    cases i with
    | zero =>
      simp only [Nat.add_zero] at hsucc
      show establish_loop d n
          (if (d k).isSome = true then true else false) (d k) (k + 1) =
        (some r, k + 0 + 1)
      rw [hsucc]
      show establish_loop d n true (some r) (k + 1) = (some r, k + 0 + 1)
      rw [establish_loop_stuck d n (some r) (k + 1)]
    | succ i =>
      have h0 : d k = none := by
        have h := hfail 0 (Nat.succ_pos i)
        simpa using h
      show establish_loop d n
          (if (d k).isSome = true then true else false) (d k) (k + 1) =
        (some r, k + (i + 1) + 1)
      rw [h0]
      show establish_loop d n false none (k + 1) =
        (some r, k + (i + 1) + 1)
      have hrec := ih i (k + 1) r (by omega)
        (fun j hj => by
          have h := hfail (j + 1) (by omega)
          have e : k + (j + 1) = k + 1 + j := by omega
          rw [e] at h
          exact h)
        (by
          have e : k + (i + 1) = k + 1 + i := by omega
          rw [e] at hsucc
          exact hsucc)
      rw [hrec]
      have e : k + 1 + i + 1 = k + (i + 1) + 1 := by omega
      rw [e]

/-- When every call with index below k + n returns not-found, the loop
started at call counter k exhausts its n iterations and returns no record
after n further calls. -/
theorem establish_loop_all_fail (d : Nat → Option ServiceInfo) :
    ∀ n k, (∀ j, j < n → d (k + j) = none) →
      establish_loop d n false none k = (none, k + n) := by
  intro n
  induction n with
  | zero => intro k _; simp [establish_loop]
  | succ n ih =>
    intro k hfail
    have h0 : d k = none := by
      have h := hfail 0 (Nat.succ_pos n)
      simpa using h
    show establish_loop d n
        (if (d k).isSome = true then true else false) (d k) (k + 1) =
      (none, k + (n + 1))
    rw [h0]
    show establish_loop d n false none (k + 1) = (none, k + (n + 1))
    have hrec := ih (k + 1)
      (fun j hj => by
        have h := hfail (j + 1) (by omega)
        have e : k + (j + 1) = k + 1 + j := by omega
        rw [e] at h
        exact h)
    rw [hrec]
    have e : k + 1 + n = k + (n + 1) := by omega
    rw [e]

theorem establish_eq_fail (env : DCEnv) (st : ConnState) (serial : String)
    (calls : Nat)
    (hE : establish_loop (attemptResult env serial) 3 false none 0 =
      (none, calls)) :
    establish_first_connection env st serial = (false, st, calls) := by
  simp only [establish_first_connection, hE]

theorem establish_eq_succ (env : DCEnv) (st : ConnState) (serial : String)
    (conn : ServiceInfo) (calls : Nat)
    (hE : establish_loop (attemptResult env serial) 3 false none 0 =
      (some conn, calls)) :
    establish_first_connection env st serial =
      (true,
        (if conn.port ≠ env.fixedPort then
          fix_adb_port env
            (fun s => if s = conn.serial_number then some conn
              else if s = serial then none else st s)
            conn.serial_number
        else
          (fun s => if s = conn.serial_number then some conn
            else if s = serial then none else st s)),
        calls) := by
  simp only [establish_first_connection, hE]
  simp

/-- C5 amended: establish_first_connection(serial) calls the connection
manager device_connect at most 3 times; when the attempts with indices
below i return not-found and attempt i (i below 3) returns a record whose
serial number is the requested serial, it returns True after exactly i + 1
calls and afterwards the managed connection table maps that serial to the
returned record — except that the port field of the stored record is
rewritten to the fixed port by the port-fix sub-protocol when the returned
record carries a different port and the freshly stored connection
validates — replacing any prior entry for the serial; when all 3 attempts
return not-found it returns False and the managed table is left untouched
(the whole table is returned unchanged, in particular the entry for that
serial). -/
theorem establish_first_connection_spec (env : DCEnv) (st : ConnState)
    (serial : String) :
    (establish_first_connection env st serial).snd.snd ≤ 3 ∧
    (∀ i r, i < 3 →
      (∀ j, j < i → attemptResult env serial j = none) →
      attemptResult env serial i = some r → r.serial_number = serial →
      (establish_first_connection env st serial).fst = true ∧
      (establish_first_connection env st serial).snd.snd = i + 1 ∧
      ((establish_first_connection env st serial).snd.fst serial = some r ∨
        (r.port ≠ env.fixedPort ∧
          (establish_first_connection env st serial).snd.fst serial =
            some { r with port := env.fixedPort }))) ∧
    ((∀ j, j < 3 → attemptResult env serial j = none) →
      (establish_first_connection env st serial).fst = false ∧
      (establish_first_connection env st serial).snd.fst = st) := by
  refine ⟨?_, ?_, ?_⟩
  · have hle := establish_loop_calls_le (attemptResult env serial) 3 false
      none 0
    cases hE : establish_loop (attemptResult env serial) 3 false none 0 with
    | mk copt calls =>
      rw [hE] at hle
      simp only at hle
      cases copt with
      | none =>
        rw [establish_eq_fail env st serial calls hE]
        simpa using hle
      | some conn =>
        rw [establish_eq_succ env st serial conn calls hE]
        simpa using hle
  · intro i r hi hfirst hsucc hsn
    have hE := establish_loop_first_success (attemptResult env serial) 3 i
      0 r hi
      (fun j hj => by
        have h := hfirst j hj
        rw [Nat.zero_add]
        exact h)
      (by rw [Nat.zero_add]; exact hsucc)
    rw [Nat.zero_add] at hE
    rw [establish_eq_succ env st serial r (i + 1) hE]
    refine ⟨rfl, rfl, ?_⟩
    by_cases hp : r.port = env.fixedPort
    · left
      simp only [hp, ne_eq, not_true_eq_false, if_false, ite_not]
      simp [hsn]
    · by_cases hv : validate_connection_noforce env
        (fun s => if s = r.serial_number then some r
          else if s = serial then none else st s) r.serial_number
      · right
        refine ⟨hp, ?_⟩
        simp only [ne_eq, hp, not_false_eq_true, if_true, if_pos]
        simp only [fix_adb_port, hv, if_pos]
        simp [hsn]
      · left
        simp only [ne_eq, hp, not_false_eq_true, if_true, if_pos]
        simp only [fix_adb_port, hv, if_false]
        simp [hsn]
  · intro hall
    have hE := establish_loop_all_fail (attemptResult env serial) 3 0
      (fun j hj => by
        have h := hall j hj
        rw [Nat.zero_add]
        exact h)
    rw [Nat.zero_add] at hE
    rw [establish_eq_fail env st serial 3 hE]
    exact ⟨rfl, rfl⟩

/-- The record the discovery registry holds for SER1 in the C5 scenario:
the discovery-assigned ephemeral port 40000. -/
def recEphemeral : ServiceInfo := ⟨"SER1", "10.0.0.5", 40000⟩

/-- The record actually stored by establish_first_connection in the C5
scenario: the port has been rewritten to the fixed port 5555. -/
def recFixedPort : ServiceInfo := ⟨"SER1", "10.0.0.5", 5555⟩

/-- Discovery registry for the C5 scenario: SER1 online at 10.0.0.5 with
the ephemeral port. -/
def ctxEst : MDnsContext :=
  { online := fun s => if s = "SER1" then some recEphemeral else none,
    offline := fun _ => none }

/-- Environment for the C5 scenario: fixed port 5555; the first two
device_connect calls see an empty registry (not-found), the third sees
SER1; validation during the port fix sees the same registry, so the stored
record classifies as UPDATED. -/
def envEst : DCEnv :=
  { fixedPort := 5555
    discAt := fun k => if k = 2 then ctxEst else MDnsContext.empty
    discV := ctxEst
    adbCheck := fun _ => true
    connectFailed := fun _ => false }

/-- The empty managed connection table. -/
def stEmpty : ConnState := fun _ => none

/-- Counterexample for C5: with the connect attempt returning the record
with ephemeral port 40000 (first two attempts not-found), the call returns
True but the managed connection table afterwards maps SER1 to the record
with port 5555, not to the returned record: the port-fix sub-protocol
rewrote the stored port before establish_first_connection returned, so the
table does not map the serial to the record the successful attempt
returned. -/
theorem establish_portfix_cex :
    attemptResult envEst "SER1" 0 = none ∧
    attemptResult envEst "SER1" 1 = none ∧
    attemptResult envEst "SER1" 2 = some recEphemeral ∧
    (establish_first_connection envEst stEmpty "SER1").fst = true ∧
    (establish_first_connection envEst stEmpty "SER1").snd.fst "SER1" =
      some recFixedPort ∧
    some recFixedPort ≠ some recEphemeral := by
  refine ⟨rfl, rfl, rfl, rfl, rfl, by decide⟩

/-- Witness for C5 amended: the theorem applied at the concrete scenario
(two not-found attempts, success on the third), discharging every
hypothesis; the disjunction resolves to the port-rewritten branch. -/
theorem establish_first_connection_spec_witness :
    (establish_first_connection envEst stEmpty "SER1").fst = true ∧
    (establish_first_connection envEst stEmpty "SER1").snd.snd = 2 + 1 ∧
    ((establish_first_connection envEst stEmpty "SER1").snd.fst "SER1" =
        some recEphemeral ∨
      (recEphemeral.port ≠ envEst.fixedPort ∧
        (establish_first_connection envEst stEmpty "SER1").snd.fst "SER1" =
          some { recEphemeral with port := envEst.fixedPort })) :=
  (establish_first_connection_spec envEst stEmpty "SER1").2.1 2
    recEphemeral (by omega)
    (fun j hj => by
      match j, hj with
      | 0, _ => rfl
      | 1, _ => rfl)
    rfl rfl

/-- AdbPairing.pair_devices (adb_pairing.py, lines 315 to 343): snapshot
the online pairing candidates (the items of the online dict of the pairing
registry, given here as the association list online_services), and for
each candidate run the external adb pair command with the candidate
address and the stored credential, recording whether its stdout contained
the success marker for that address (the pairOK oracle). When no candidate
was seen, return False; otherwise return the conjunction of all recorded
results. The second component lists the performed invocations, each an
address paired with the credential passed on the command line. -/
def pair_devices (passwd : String)
    (online_services : List (String × ServiceInfo))
    (pairOK : String → Bool) : Bool × List (String × String) :=
  let all_ops := online_services.map (fun elem => pairOK (commUri elem.snd))
  let invocations :=
    online_services.map (fun elem => (commUri elem.snd, passwd))
  if all_ops.length = 0 then (false, invocations)
  else (all_ops.all (fun b => b), invocations)

/-- C8: pair_devices() invokes the external pairing command exactly once
for every currently-online pairing candidate (with that candidate's
address and the credential), and returns True only if there was at least
one candidate and every one of those invocations reported success; a
single failing invocation makes the whole call return False. -/
theorem pair_devices_all_of (passwd : String)
    (online_services : List (String × ServiceInfo))
    (pairOK : String → Bool) :
    ((pair_devices passwd online_services pairOK).snd =
      online_services.map (fun elem => (commUri elem.snd, passwd))) ∧
    ((pair_devices passwd online_services pairOK).fst = true →
      online_services ≠ [] ∧
      ∀ elem ∈ online_services, pairOK (commUri elem.snd) = true) ∧
    (∀ elem ∈ online_services, pairOK (commUri elem.snd) = false →
      (pair_devices passwd online_services pairOK).fst = false) := by
  refine ⟨?_, ?_, ?_⟩
  · by_cases h : online_services = [] <;> simp [pair_devices, h]
  · intro hres
    by_cases h : online_services = []
    · subst h
      exact absurd hres (by simp [pair_devices])
    · refine ⟨h, ?_⟩
      intro elem hmem
      have hne : ¬((online_services.map
          (fun elem => pairOK (commUri elem.snd))).length = 0) := by
        simpa using h
      rw [pair_devices] at hres
      simp only [if_neg hne] at hres
      have hall := (List.all_eq_true).mp hres
      exact hall _ (List.mem_map_of_mem _ hmem)
  · intro elem hmem hbad
    have h : online_services ≠ [] := by
      intro hnil
      subst hnil
      exact absurd hmem (List.not_mem_nil elem)
    have hne : ¬((online_services.map
        (fun elem => pairOK (commUri elem.snd))).length = 0) := by
      simpa using h
    rw [pair_devices]
    simp only [if_neg hne]
    rcases hall : (online_services.map
        (fun elem => pairOK (commUri elem.snd))).all (fun b => b) with _ | _
    · exact hall
    · have htrue := (List.all_eq_true).mp hall _
        (List.mem_map_of_mem _ hmem)
      rw [hbad] at htrue
      exact absurd htrue (by decide)

/-- Pairing candidates for the C8 witness: two devices online. -/
def pairListW : List (String × ServiceInfo) :=
  [("SER1", ⟨"SER1", "10.0.0.5", 40001⟩),
   ("SER2", ⟨"SER2", "10.0.0.6", 40002⟩)]

/-- Pairing oracle for the C8 witness: the invocation for the second
candidate address reports failure, every other one reports success. -/
def pairOKW : String → Bool :=
  fun u => !(u == "10.0.0.6:40002")

/-- Witness for C8: the theorem applied at the concrete candidate list and
oracle, discharging the membership and failure hypotheses of the
single-failure clause: one failing invocation makes the whole call return
False. -/
theorem pair_devices_all_of_witness :
    ("SER2", (⟨"SER2", "10.0.0.6", 40002⟩ : ServiceInfo)) ∈ pairListW ∧
    pairOKW (commUri ⟨"SER2", "10.0.0.6", 40002⟩) = false ∧
    (pair_devices "Ab3dEf12" pairListW pairOKW).fst = false :=
  ⟨by decide, rfl,
    (pair_devices_all_of "Ab3dEf12" pairListW pairOKW).2.2
      ("SER2", ⟨"SER2", "10.0.0.6", 40002⟩) (by decide) rfl⟩

/-- C10: when the online mapping of the pairing registry is empty, its
snapshot of candidate items is the empty list and pair_devices() returns
False: the explicit length check in the source turns the vacuous all-of
conjunction into a failure rather than a success. -/
theorem pair_devices_empty_false (passwd : String)
    (pairOK : String → Bool) :
    (pair_devices passwd [] pairOK).fst = false := rfl

end DeviceManager
